import Mathlib

/-
Verification of the conversion layer of geojson-rstar (src/conversion.rs).

The layer converts between typed `geo` geometries (generic over a numeric
type `T : Float`) and flat GeoJSON-style interchange values.  We embed the
code shallowly:

* `f64` values are modelled as rationals (`Rat`): every finite double is a
  rational, and the code performs no arithmetic on coordinates — it only
  moves them through the `num_traits::Float` conversions `to_f64` and
  `T::from`, which are partial (they return `Option`).
* A generic numeric parameter `T : Float` is modelled by a type `T`
  together with a `FloatT T` record holding those two partial conversions.
* Rust panics (`unwrap()` on a failed conversion, out-of-bounds `[]`
  indexing) are modelled by the `Except PanicKind` monad: `.error` is a
  panic, `.ok` a normal return; bind order follows the code's evaluation
  order.
* `geo` / `geojson` container types are modelled structurally, following
  their use in the source and the data model of the spec (the crates
  themselves are external dependencies not present in the repository;
  the spec states that rings and sequences are passed through
  structurally, element for element).
-/

set_option autoImplicit false

namespace Conversion

/-- The two ways the code can panic: an out-of-bounds positional index, or
a failed numeric conversion unwrapped with `unwrap()`. -/
inductive PanicKind where
  | indexOOB
  | numConv
deriving DecidableEq, Repr

/-- Result of running a piece of code that may panic. -/
abbrev Res (α : Type) : Type := Except PanicKind α

/-- Model of Rust `Option::unwrap`: a present value is returned, a missing
one panics (here, the failure of a numeric conversion). -/
def unwrap {α : Type} : Option α → Res α
  | some a => Except.ok a
  | none => Except.error PanicKind.numConv

/-- Model of Rust slice indexing `l[i]`: panics when out of bounds. -/
def indexAt {α : Type} (l : List α) (i : Nat) : Res α :=
  match l.get? i with
  | some a => Except.ok a
  | none => Except.error PanicKind.indexOOB

/-- Model of the `num_traits::Float` interface as the code uses it: the two
partial conversions between `T` and `f64` (`to_f64` and `T::from`). -/
structure FloatT (T : Type) where
  to_f64 : T → Option Rat
  from_f64 : Rat → Option T

/-- The instance for `T = f64` itself: both conversions are the total
identity. -/
def idF : FloatT Rat where
  to_f64 := fun x => some x
  from_f64 := fun x => some x

/-- A `FloatT` instance on which every conversion fails, to exhibit the
panic paths. -/
def badF : FloatT Rat where
  to_f64 := fun _ => none
  from_f64 := fun _ => none

/-! ### The flat interchange family (geojson) -/

/-- geojson `PointType`: a coordinate pair `[x, y]` (a vector of doubles). -/
abbrev PointType : Type := List Rat

/-- geojson `LineStringType`: a sequence of coordinate pairs. -/
abbrev LineStringType : Type := List PointType

/-- geojson `PolygonType`: a sequence of rings; element 0 is the exterior
ring by convention. -/
abbrev PolygonType : Type := List LineStringType

/-! ### The typed geometry family (geo) -/

/-- geo `Coord<T>`: an (x, y) pair. -/
structure Coord (T : Type) where
  x : T
  y : T
deriving DecidableEq

/-- geo `Point<T>`: wraps one `Coord<T>`. -/
structure Point (T : Type) where
  c : Coord T
deriving DecidableEq

/-- geo `Point::new`. -/
def Point.new {T : Type} (x y : T) : Point T := ⟨⟨x, y⟩⟩

/-- geo `Point::x`. -/
def Point.x {T : Type} (p : Point T) : T := p.c.x

/-- geo `Point::y`. -/
def Point.y {T : Type} (p : Point T) : T := p.c.y

/-- geo `LineString<T>`: an ordered sequence of coordinates. -/
structure LineString (T : Type) where
  coords : List (Coord T)
deriving DecidableEq

/-- geo `LineString::points`: iterate the coordinates as points. -/
def LineString.points {T : Type} (l : LineString T) : List (Point T) :=
  l.coords.map (fun c => ⟨c⟩)

/-- geo `MultiPoint<T>`. -/
structure MultiPoint (T : Type) where
  points : List (Point T)
deriving DecidableEq

/-- geo `MultiLineString<T>`. -/
structure MultiLineString (T : Type) where
  lineStrings : List (LineString T)
deriving DecidableEq

/-- geo `Polygon<T>`: one exterior ring plus interior rings. -/
structure Polygon (T : Type) where
  exterior : LineString T
  interiors : List (LineString T)
deriving DecidableEq

/-- geo `Polygon::new`. Modelled from the spec: the `geo` crate's sources
are not part of this repository; per the spec's data model the conversion
layer passes rings through structurally, so the constructor pairs the
exterior with the interior rings unchanged. -/
def Polygon.new {T : Type} (exterior : LineString T)
    (interiors : List (LineString T)) : Polygon T :=
  ⟨exterior, interiors⟩

/-- geo `MultiPolygon<T>`. -/
structure MultiPolygon (T : Type) where
  polygons : List (Polygon T)
deriving DecidableEq

/-- geo `Geometry<T>`: the tagged union of the seven geometry kinds.  The
`geometryCollection` payload is geo's `GeometryCollection<T>`, a wrapper
around a list of geometries, kept here as the raw list. -/
inductive GeoGeometry (T : Type) where
  | point (p : Point T)
  | lineString (l : LineString T)
  | polygon (p : Polygon T)
  | multiPoint (m : MultiPoint T)
  | multiLineString (m : MultiLineString T)
  | multiPolygon (m : MultiPolygon T)
  | geometryCollection (g : List (GeoGeometry T))

/-- geo `GeometryCollection<T>` as the list of its members. -/
abbrev GeometryCollection (T : Type) : Type := List (GeoGeometry T)

/-! ### geojson tagged geometry values -/

mutual
/-- geojson `Geometry`: carries a `Value`; the code reads only the `value`
field. -/
inductive Geometry : Type where
  | mk (value : Value)

/-- geojson `Value`: the tagged flat geometry payload. -/
inductive Value : Type where
  | point (p : PointType)
  | multiPoint (p : List PointType)
  | lineString (l : LineStringType)
  | multiLineString (m : List LineStringType)
  | polygon (p : PolygonType)
  | multiPolygon (m : List PolygonType)
  | geometryCollection (g : List Geometry)
end

/-- Field accessor `g.value` of geojson `Geometry`. -/
def Geometry.value : Geometry → Value
  | .mk v => v

/-! ### Sequencing helper

Rust's `iter().map(f).collect()` evaluates `f` left to right; a panic in
any element aborts the whole collection.  `mapRes` is that evaluation
order made explicit in the `Res` monad. -/

/-- Map a fallible conversion over a list, left to right, propagating the
first panic. -/
def mapRes {α β : Type} (f : α → Res β) : List α → Res (List β)
  | [] => Except.ok []
  | a :: as =>
    match f a with
    | Except.error e => Except.error e
    | Except.ok b =>
      match mapRes f as with
      | Except.error e => Except.error e
      | Except.ok bs => Except.ok (b :: bs)

/-! ### Encoders (typed → flat), from src/conversion.rs lines 22–84 -/

/-- `create_point_type`: encode a point as `[x, y]` via `to_f64().unwrap()`
on each coordinate. -/
def create_point_type {T : Type} (F : FloatT T) (point : Point T) :
    Res PointType := do
  let x ← unwrap (F.to_f64 point.x)
  let y ← unwrap (F.to_f64 point.y)
  return [x, y]

/-- `create_line_string_type`: map `create_point_type` over the points. -/
def create_line_string_type {T : Type} (F : FloatT T)
    (line_string : LineString T) : Res LineStringType :=
  mapRes (fun point => create_point_type F point) line_string.points

/-- `create_multi_line_string_type`: map `create_line_string_type` over the
member line strings. -/
def create_multi_line_string_type {T : Type} (F : FloatT T)
    (multi_line_string : MultiLineString T) : Res (List LineStringType) :=
  mapRes (fun line_string => create_line_string_type F line_string)
    multi_line_string.lineStrings

/-- `create_polygon_type`: the exterior ring's points first, then each
interior ring, each encoded independently. -/
def create_polygon_type {T : Type} (F : FloatT T) (polygon : Polygon T) :
    Res PolygonType := do
  let exteriorCoords ←
    mapRes (fun point => create_point_type F point) polygon.exterior.points
  let interiorCoords ←
    mapRes (fun line_string => create_line_string_type F line_string)
      polygon.interiors
  return exteriorCoords :: interiorCoords

/-- `create_multi_polygon_type`: map `create_polygon_type` over the member
polygons. -/
def create_multi_polygon_type {T : Type} (F : FloatT T)
    (multi_polygon : MultiPolygon T) : Res (List PolygonType) :=
  mapRes (fun polygon => create_polygon_type F polygon)
    multi_polygon.polygons

/-! ### Decoders (flat → typed), from src/conversion.rs lines 87–191 -/

/-- `create_geo_coordinate`: positional indexing of `[x, y]`, each value
run through `T::from(..).unwrap()`. -/
def create_geo_coordinate {T : Type} (F : FloatT T)
    (point_type : PointType) : Res (Coord T) := do
  let x ← unwrap (F.from_f64 (← indexAt point_type 0))
  let y ← unwrap (F.from_f64 (← indexAt point_type 1))
  return ⟨x, y⟩

/-- `create_geo_point`: same indexing contract, wrapped via `Point::new`. -/
def create_geo_point {T : Type} (F : FloatT T) (point_type : PointType) :
    Res (Point T) := do
  let x ← unwrap (F.from_f64 (← indexAt point_type 0))
  let y ← unwrap (F.from_f64 (← indexAt point_type 1))
  return Point.new x y

/-- `create_geo_multi_point`: map `create_geo_point` over the pairs. -/
def create_geo_multi_point {T : Type} (F : FloatT T)
    (multipoint_type : List PointType) : Res (MultiPoint T) :=
  Except.map MultiPoint.mk
    (mapRes (fun point_type => create_geo_point F point_type) multipoint_type)

/-- `create_geo_line_string`: map `create_geo_coordinate` over the pairs. -/
def create_geo_line_string {T : Type} (F : FloatT T)
    (line_type : LineStringType) : Res (LineString T) :=
  Except.map LineString.mk
    (mapRes (fun point_type => create_geo_coordinate F point_type) line_type)

/-- `create_geo_multi_line_string`: map `create_geo_line_string` over the
member line strings. -/
def create_geo_multi_line_string {T : Type} (F : FloatT T)
    (multi_line_type : List LineStringType) : Res (MultiLineString T) :=
  Except.map MultiLineString.mk
    (mapRes (fun point_type => create_geo_line_string F point_type)
      multi_line_type)

/-- `create_geo_polygon`: element 0 (when present) is the exterior ring,
an absent element 0 falls back to decoding the empty ring; elements from
index 1 on are the interior rings. -/
def create_geo_polygon {T : Type} (F : FloatT T)
    (polygon_type : PolygonType) : Res (Polygon T) := do
  let exterior ←
    match polygon_type.get? 0 with
    | some e => create_geo_line_string F e
    | none => create_geo_line_string F []
  let interiors ←
    if polygon_type.length < 2 then
      Except.ok []
    else
      mapRes (fun line_string_type => create_geo_line_string F line_string_type)
        (polygon_type.drop 1)
  return Polygon.new exterior interiors

/-- `create_geo_multi_polygon`: map `create_geo_polygon` over the member
polygons. -/
def create_geo_multi_polygon {T : Type} (F : FloatT T)
    (multi_polygon_type : List PolygonType) : Res (MultiPolygon T) :=
  Except.map MultiPolygon.mk
    (mapRes (fun polygon_type => create_geo_polygon F polygon_type)
      multi_polygon_type)

mutual
/-- The body of `create_geo_geometry_collection`'s closure: dispatch on
the element's tag and decode with the matching singular decoder, wrapping
the result in the matching `geo::Geometry` variant. -/
def create_geo_geometry {T : Type} (F : FloatT T) :
    Geometry → Res (GeoGeometry T)
  | .mk (.point p) =>
    Except.map GeoGeometry.point (create_geo_point F p)
  | .mk (.lineString l) =>
    Except.map GeoGeometry.lineString (create_geo_line_string F l)
  | .mk (.polygon p) =>
    Except.map GeoGeometry.polygon (create_geo_polygon F p)
  | .mk (.multiPoint p) =>
    Except.map GeoGeometry.multiPoint (create_geo_multi_point F p)
  | .mk (.multiPolygon p) =>
    Except.map GeoGeometry.multiPolygon (create_geo_multi_polygon F p)
  | .mk (.multiLineString p) =>
    Except.map GeoGeometry.multiLineString (create_geo_multi_line_string F p)
  | .mk (.geometryCollection g) =>
    Except.map GeoGeometry.geometryCollection
      (create_geo_geometry_collection F g)

/-- `create_geo_geometry_collection`: map the dispatch over the sequence,
collecting into a `GeometryCollection`. -/
def create_geo_geometry_collection {T : Type} (F : FloatT T) :
    List Geometry → Res (GeometryCollection T)
  | [] => Except.ok []
  | g :: gs =>
    match create_geo_geometry F g with
    | Except.error e => Except.error e
    | Except.ok x =>
      match create_geo_geometry_collection F gs with
      | Except.error e => Except.error e
      | Except.ok xs => Except.ok (x :: xs)
end

/-! ### Lemmas about `mapRes` -/

theorem mapRes_nil {α β : Type} (f : α → Res β) : mapRes f [] = Except.ok [] :=
  rfl

theorem mapRes_cons_ok {α β : Type} (f : α → Res β) {a : α} {as : List α}
    {b : β} {bs : List β} (h1 : f a = Except.ok b)
    (h2 : mapRes f as = Except.ok bs) :
    mapRes f (a :: as) = Except.ok (b :: bs) := by
  simp [mapRes, h1, h2]

theorem mapRes_ok_cons_elim {α β : Type} {f : α → Res β} {a : α}
    {as : List α} {out : List β} (h : mapRes f (a :: as) = Except.ok out) :
    ∃ b bs, f a = Except.ok b ∧ mapRes f as = Except.ok bs ∧ out = b :: bs := by
  rw [mapRes] at h
  cases hf : f a with
  | error e => rw [hf] at h; cases h
  | ok b =>
    rw [hf] at h
    cases hr : mapRes f as with
    | error e => rw [hr] at h; cases h
    | ok bs =>
      rw [hr] at h
      cases h
      exact ⟨b, bs, rfl, rfl, rfl⟩

/-- Mapping over a list preserves its length and converts it pointwise, in
order: this is the shape of every `iter().map(..).collect()` in the code. -/
theorem mapRes_ok_length_get {α β : Type} {f : α → Res β} :
    ∀ {l : List α} {out : List β}, mapRes f l = Except.ok out →
      out.length = l.length ∧
      ∀ i (hi : i < l.length) (ho : i < out.length),
        f (l.get ⟨i, hi⟩) = Except.ok (out.get ⟨i, ho⟩) := by
  intro l
  induction l with
  | nil =>
    intro out h
    cases h
    exact ⟨rfl, fun i hi _ => absurd hi (Nat.not_lt_zero i)⟩
  | cons a as ih =>
    intro out h
    obtain ⟨b, bs, hb, hbs, rfl⟩ := mapRes_ok_cons_elim h
    obtain ⟨hlen, hget⟩ := ih hbs
    refine ⟨by simp [hlen], ?_⟩
    intro i hi ho
    cases i with
    | zero => simpa using hb
    | succ j =>
      have hj : j < as.length := Nat.lt_of_succ_lt_succ hi
      have hj2 : j < bs.length := hlen ▸ hj
      simpa using hget j hj hj2

/-- If the conversion succeeds on every element, the whole map succeeds. -/
theorem mapRes_total {α β : Type} {f : α → Res β} :
    ∀ {l : List α}, (∀ a ∈ l, ∃ b, f a = Except.ok b) →
      ∃ out, mapRes f l = Except.ok out := by
  intro l
  induction l with
  | nil => exact fun _ => ⟨[], rfl⟩
  | cons a as ih =>
    intro h
    obtain ⟨b, hb⟩ := h a (List.mem_cons_self a as)
    obtain ⟨bs, hbs⟩ := ih (fun x hx => h x (List.mem_cons_of_mem a hx))
    exact ⟨b :: bs, mapRes_cons_ok f hb hbs⟩

/-- If `g` inverts `f` on every element of `l`, then mapping `g` inverts
mapping `f` on `l`. -/
theorem mapRes_roundtrip {α β : Type} {f : α → Res β} {g : β → Res α} :
    ∀ {l : List α} {out : List β},
      (∀ a ∈ l, ∀ b, f a = Except.ok b → g b = Except.ok a) →
      mapRes f l = Except.ok out → mapRes g out = Except.ok l := by
  intro l
  induction l with
  | nil =>
    intro out _ h
    cases h
    rfl
  | cons a as ih =>
    intro out hinv h
    obtain ⟨b, bs, hb, hbs, rfl⟩ := mapRes_ok_cons_elim h
    have h1 : g b = Except.ok a := hinv a (List.mem_cons_self a as) b hb
    have h2 : mapRes g bs = Except.ok as :=
      ih (fun x hx => hinv x (List.mem_cons_of_mem a hx)) hbs
    exact mapRes_cons_ok g h1 h2

theorem mapRes_map {α β γ : Type} (f : β → Res γ) (g : α → β) :
    ∀ (l : List α), mapRes f (l.map g) = mapRes (fun a => f (g a)) l := by
  intro l
  induction l with
  | nil => rfl
  | cons a as ih =>
    simp only [List.map_cons]
    unfold mapRes
    rw [ih]

/-- The recursive collection decoder is the map of the per-element
dispatch over the sequence. -/
theorem create_geo_geometry_collection_eq_mapRes {T : Type} (F : FloatT T) :
    ∀ (gs : List Geometry),
      create_geo_geometry_collection F gs =
        mapRes (fun g => create_geo_geometry F g) gs := by
  intro gs
  induction gs with
  | nil => rfl
  | cons g gs ih =>
    rw [create_geo_geometry_collection, mapRes, ih]
    cases create_geo_geometry F g with
    | error e => rfl
    | ok x =>
      cases mapRes (fun g => create_geo_geometry F g) gs with
      | error e => rfl
      | ok xs => rfl

/-! ### Double-representable coordinates -/

/-- The coordinate values occurring in a point. -/
def Point.coordVals {T : Type} (p : Point T) : List T := [p.x, p.y]

/-- The coordinate values occurring in a line string. -/
def LineString.coordVals {T : Type} (l : LineString T) : List T :=
  l.coords.flatMap (fun c => [c.x, c.y])

/-- The coordinate values occurring in a multi line string. -/
def MultiLineString.coordVals {T : Type} (m : MultiLineString T) : List T :=
  m.lineStrings.flatMap (fun l => l.coordVals)

/-- The coordinate values occurring in a polygon. -/
def Polygon.coordVals {T : Type} (p : Polygon T) : List T :=
  p.exterior.coordVals ++ p.interiors.flatMap (fun l => l.coordVals)

/-- The coordinate values occurring in a multi polygon. -/
def MultiPolygon.coordVals {T : Type} (m : MultiPolygon T) : List T :=
  m.polygons.flatMap (fun p => p.coordVals)

/-- `t` is finite and double-representable for `F`: converting it to f64
succeeds and converting the double back recovers `t` exactly.  For
`T = f64` (`idF`) this holds for every value. -/
def Rep {T : Type} (F : FloatT T) (t : T) : Prop :=
  ∃ d, F.to_f64 t = some d ∧ F.from_f64 d = some t

theorem rep_idF (x : Rat) : Rep idF x := ⟨x, rfl, rfl⟩

/-- An inverse computed once transports along determinism of the forward
conversion. -/
theorem rt_det {α β : Type} {x : Res β} {g : β → Res α} {a : α}
    {b0 b : β} (h : x = Except.ok b0) (hg : g b0 = Except.ok a)
    (hb : x = Except.ok b) : g b = Except.ok a := by
  rw [h] at hb
  cases hb
  exact hg

@[simp]
theorem res_bind_ok {α β : Type} (a : α) (f : α → Res β) :
    (Except.ok a : Res α) >>= f = f a := rfl

@[simp]
theorem res_bind_error {α β : Type} (e : PanicKind) (f : α → Res β) :
    (Except.error e : Res α) >>= f = (Except.error e : Res β) := rfl

/-! ### Coordinate- and point-level computation lemmas -/

theorem create_point_type_eq {T : Type} (F : FloatT T) {x y : T}
    {dx dy : Rat} (hx : F.to_f64 x = some dx) (hy : F.to_f64 y = some dy) :
    create_point_type F (Point.new x y) = Except.ok [dx, dy] := by
  simp [create_point_type, Point.new, Point.x, Point.y, hx, hy, unwrap]

theorem create_geo_coordinate_pair {T : Type} (F : FloatT T) {dx dy : Rat}
    {x y : T} (hx : F.from_f64 dx = some x) (hy : F.from_f64 dy = some y)
    (rest : List Rat) :
    create_geo_coordinate F (dx :: dy :: rest) = Except.ok ⟨x, y⟩ := by
  simp [create_geo_coordinate, indexAt, hx, hy, unwrap]

theorem create_geo_point_pair {T : Type} (F : FloatT T) {dx dy : Rat}
    {x y : T} (hx : F.from_f64 dx = some x) (hy : F.from_f64 dy = some y)
    (rest : List Rat) :
    create_geo_point F (dx :: dy :: rest) = Except.ok (Point.new x y) := by
  simp [create_geo_point, indexAt, hx, hy, unwrap]

/-- Round trip at the point level, with the decoded forms both as a
coordinate and as a point. -/
theorem point_roundtrip {T : Type} (F : FloatT T) (p : Point T)
    (hx : Rep F p.x) (hy : Rep F p.y) :
    ∃ pt, create_point_type F p = Except.ok pt ∧
      create_geo_point F pt = Except.ok p ∧
      create_geo_coordinate F pt = Except.ok p.c := by
  obtain ⟨⟨x, y⟩⟩ := p
  obtain ⟨dx, hx1, hx2⟩ := hx
  obtain ⟨dy, hy1, hy2⟩ := hy
  exact ⟨[dx, dy], create_point_type_eq F hx1 hy1,
    create_geo_point_pair F hx2 hy2 [],
    create_geo_coordinate_pair F hx2 hy2 []⟩

/-! ### Round trips per shape -/

theorem line_string_roundtrip {T : Type} (F : FloatT T) (l : LineString T)
    (h : ∀ t ∈ l.coordVals, Rep F t) :
    ∃ lt, create_line_string_type F l = Except.ok lt ∧
      create_geo_line_string F lt = Except.ok l := by
  have hx : ∀ c ∈ l.coords, Rep F c.x := by
    intro c hc
    exact h c.x (List.mem_flatMap.2 ⟨c, hc, by simp⟩)
  have hy : ∀ c ∈ l.coords, Rep F c.y := by
    intro c hc
    exact h c.y (List.mem_flatMap.2 ⟨c, hc, by simp⟩)
  have henc : create_line_string_type F l =
      mapRes (fun c => create_point_type F ⟨c⟩) l.coords := by
    rw [create_line_string_type, LineString.points, mapRes_map]
  have hrt : ∀ c ∈ l.coords, ∃ pt,
      create_point_type F (⟨c⟩ : Point T) = Except.ok pt ∧
      create_geo_coordinate F pt = Except.ok c := by
    intro c hc
    obtain ⟨pt, h1, _, h3⟩ := point_roundtrip F ⟨c⟩ (hx c hc) (hy c hc)
    exact ⟨pt, h1, h3⟩
  obtain ⟨out, hout⟩ := mapRes_total (l := l.coords) (fun c hc =>
    (hrt c hc).imp (fun pt hpt => hpt.1))
  refine ⟨out, henc ▸ hout, ?_⟩
  have hdec : mapRes (fun pt => create_geo_coordinate F pt) out =
      Except.ok l.coords := by
    refine mapRes_roundtrip ?_ hout
    intro c hc b hb
    obtain ⟨pt, h1, h3⟩ := hrt c hc
    exact rt_det h1 h3 hb
  rw [create_geo_line_string, hdec]
  rfl

/-- Round trip for a list of line strings (shared by multi line string and
polygon interiors). -/
theorem line_string_list_roundtrip {T : Type} (F : FloatT T)
    (L : List (LineString T)) (h : ∀ l ∈ L, ∀ t ∈ LineString.coordVals l, Rep F t) :
    ∃ out, mapRes (fun l => create_line_string_type F l) L = Except.ok out ∧
      mapRes (fun lt => create_geo_line_string F lt) out = Except.ok L := by
  obtain ⟨out, hout⟩ := mapRes_total (l := L) (fun l hl =>
    (line_string_roundtrip F l (h l hl)).imp (fun lt hlt => hlt.1))
  refine ⟨out, hout, mapRes_roundtrip ?_ hout⟩
  intro l hl b hb
  obtain ⟨lt, h1, h2⟩ := line_string_roundtrip F l (h l hl)
  exact rt_det h1 h2 hb

/-! ### Polygon computation lemmas -/

/-- Decoding the empty ring sequence: empty exterior, no interiors. -/
theorem create_geo_polygon_nil {T : Type} (F : FloatT T) :
    create_geo_polygon F [] = Except.ok (Polygon.new ⟨[]⟩ []) := rfl

/-- Decoding a nonempty ring sequence: head is the exterior, tail the
interiors. -/
theorem create_geo_polygon_cons {T : Type} (F : FloatT T)
    (r : LineStringType) (rs : List LineStringType) {e : LineString T}
    {ints : List (LineString T)}
    (he : create_geo_line_string F r = Except.ok e)
    (hints : mapRes (fun lt => create_geo_line_string F lt) rs = Except.ok ints) :
    create_geo_polygon F (r :: rs) = Except.ok (Polygon.new e ints) := by
  cases rs with
  | nil =>
    have hnil : ints = [] := by
      have : (Except.ok [] : Res (List (LineString T))) = Except.ok ints := hints
      cases this
      rfl
    subst hnil
    simp [create_geo_polygon, he]
  | cons r2 rs2 =>
    simp [create_geo_polygon, he, hints, Nat.succ_lt_succ_iff]

/-- Encoding a polygon: the encoded exterior first, then the encoded
interiors. -/
theorem create_polygon_type_eq {T : Type} (F : FloatT T) (p : Polygon T)
    {e : LineStringType} {ints : List LineStringType}
    (he : create_line_string_type F p.exterior = Except.ok e)
    (hints : mapRes (fun l => create_line_string_type F l) p.interiors =
      Except.ok ints) :
    create_polygon_type F p = Except.ok (e :: ints) := by
  have he1 : mapRes (fun point => create_point_type F point) p.exterior.points =
      Except.ok e := he
  have hints1 : mapRes (fun line_string => create_line_string_type F line_string)
      p.interiors = Except.ok ints := hints
  rw [create_polygon_type]
  rw [he1, hints1]
  rfl

theorem polygon_roundtrip {T : Type} (F : FloatT T) (p : Polygon T)
    (h : ∀ t ∈ p.coordVals, Rep F t) :
    ∃ pt, create_polygon_type F p = Except.ok pt ∧
      create_geo_polygon F pt = Except.ok p := by
  have hext : ∀ t ∈ p.exterior.coordVals, Rep F t := by
    intro t ht
    refine h t ?_
    have : t ∈ p.exterior.coordVals ++ p.interiors.flatMap
        (fun l => l.coordVals) := List.mem_append_left _ ht
    simpa [Polygon.coordVals] using this
  have hints : ∀ l ∈ p.interiors, ∀ t ∈ LineString.coordVals l, Rep F t := by
    intro l hl t ht
    refine h t ?_
    have : t ∈ p.exterior.coordVals ++ p.interiors.flatMap
        (fun l => l.coordVals) :=
      List.mem_append_right _ (List.mem_flatMap.2 ⟨l, hl, ht⟩)
    simpa [Polygon.coordVals] using this
  obtain ⟨elt, he1, he2⟩ := line_string_roundtrip F p.exterior hext
  obtain ⟨its, hi1, hi2⟩ := line_string_list_roundtrip F p.interiors hints
  refine ⟨elt :: its, create_polygon_type_eq F p he1 hi1, ?_⟩
  have : create_geo_polygon F (elt :: its) =
      Except.ok (Polygon.new p.exterior p.interiors) :=
    create_geo_polygon_cons F elt its he2 hi2
  simpa [Polygon.new] using this

/-- Round trip for a list of polygons (the members of a multi polygon). -/
theorem polygon_list_roundtrip {T : Type} (F : FloatT T)
    (L : List (Polygon T)) (h : ∀ p ∈ L, ∀ t ∈ Polygon.coordVals p, Rep F t) :
    ∃ out, mapRes (fun p => create_polygon_type F p) L = Except.ok out ∧
      mapRes (fun pt => create_geo_polygon F pt) out = Except.ok L := by
  obtain ⟨out, hout⟩ := mapRes_total (l := L) (fun p hp =>
    (polygon_roundtrip F p (h p hp)).imp (fun pt hpt => hpt.1))
  refine ⟨out, hout, mapRes_roundtrip ?_ hout⟩
  intro p hp b hb
  obtain ⟨pt, h1, h2⟩ := polygon_roundtrip F p (h p hp)
  exact rt_det h1 h2 hb

theorem multi_line_string_roundtrip {T : Type} (F : FloatT T)
    (m : MultiLineString T) (h : ∀ t ∈ m.coordVals, Rep F t) :
    ∃ mt, create_multi_line_string_type F m = Except.ok mt ∧
      create_geo_multi_line_string F mt = Except.ok m := by
  have hls : ∀ l ∈ m.lineStrings, ∀ t ∈ LineString.coordVals l, Rep F t := by
    intro l hl t ht
    exact h t (List.mem_flatMap.2 ⟨l, hl, ht⟩)
  obtain ⟨out, h1, h2⟩ := line_string_list_roundtrip F m.lineStrings hls
  refine ⟨out, h1, ?_⟩
  rw [create_geo_multi_line_string, h2]
  rfl

theorem multi_polygon_roundtrip {T : Type} (F : FloatT T)
    (m : MultiPolygon T) (h : ∀ t ∈ m.coordVals, Rep F t) :
    ∃ mt, create_multi_polygon_type F m = Except.ok mt ∧
      create_geo_multi_polygon F mt = Except.ok m := by
  have hps : ∀ p ∈ m.polygons, ∀ t ∈ Polygon.coordVals p, Rep F t := by
    intro p hp t ht
    exact h t (List.mem_flatMap.2 ⟨p, hp, ht⟩)
  obtain ⟨out, h1, h2⟩ := polygon_list_roundtrip F m.polygons hps
  refine ⟨out, h1, ?_⟩
  rw [create_geo_multi_polygon, h2]
  rfl

/-- Invert `Except.map` on a successful result. -/
theorem except_map_ok_elim {α β : Type} {f : α → β} {x : Res α} {b : β}
    (h : Except.map f x = Except.ok b) :
    ∃ a, x = Except.ok a ∧ b = f a := by
  cases x with
  | error e => cases h
  | ok a =>
    cases h
    exact ⟨a, rfl, rfl⟩

/-! ### Well-formed flat values and the flat-side round trip -/

/-- A flat coordinate pair is correctly shaped when it has exactly 2
elements. -/
def wfPointType (pt : PointType) : Prop := pt.length = 2

/-- A flat line string is correctly shaped when all its pairs are. -/
def wfLineStringType (lt : LineStringType) : Prop := ∀ pt ∈ lt, wfPointType pt

/-- A flat polygon is correctly shaped when all its rings are. -/
def wfPolygonType (pg : PolygonType) : Prop := ∀ lt ∈ pg, wfLineStringType lt

instance (pt : PointType) : Decidable (wfPointType pt) := by
  unfold wfPointType
  infer_instance

instance (lt : LineStringType) : Decidable (wfLineStringType lt) := by
  unfold wfLineStringType
  infer_instance

instance (pg : PolygonType) : Decidable (wfPolygonType pg) := by
  unfold wfPolygonType
  infer_instance

/-- The from-double conversion is total: true of the supported
floating-point family (and of `f64` itself). -/
def FromTotal {T : Type} (F : FloatT T) : Prop :=
  ∀ d, ∃ t, F.from_f64 d = some t

/-- Converting a decoded value back to double recovers the double
exactly: true of `f64` itself. -/
def FromFaithful {T : Type} (F : FloatT T) : Prop :=
  ∀ d t, F.from_f64 d = some t → F.to_f64 t = some d

theorem fromTotal_idF : FromTotal idF := fun d => ⟨d, rfl⟩

theorem fromFaithful_idF : FromFaithful idF := by
  intro d t h
  cases h
  rfl

theorem flat_coordinate_roundtrip {T : Type} (F : FloatT T)
    (hTot : FromTotal F) (hInv : FromFaithful F) (pt : PointType)
    (hwf : wfPointType pt) :
    ∃ c : Coord T, create_geo_coordinate F pt = Except.ok c ∧
      create_point_type F ⟨c⟩ = Except.ok pt ∧
      create_geo_point F pt = Except.ok ⟨c⟩ := by
  match pt with
  | [] => exact absurd hwf (by simp [wfPointType])
  | [a] => exact absurd hwf (by simp [wfPointType])
  | [a, b] =>
    obtain ⟨x, hx⟩ := hTot a
    obtain ⟨y, hy⟩ := hTot b
    exact ⟨⟨x, y⟩, create_geo_coordinate_pair F hx hy [],
      create_point_type_eq F (hInv a x hx) (hInv b y hy),
      create_geo_point_pair F hx hy []⟩
  | a :: b :: c :: rest => exact absurd hwf (by simp [wfPointType])

theorem flat_line_string_roundtrip {T : Type} (F : FloatT T)
    (hTot : FromTotal F) (hInv : FromFaithful F) (lt : LineStringType)
    (hwf : wfLineStringType lt) :
    ∃ l : LineString T, create_geo_line_string F lt = Except.ok l ∧
      create_line_string_type F l = Except.ok lt := by
  obtain ⟨cs, hcs⟩ := mapRes_total (l := lt) (fun pt hpt =>
    (flat_coordinate_roundtrip F hTot hInv pt (hwf pt hpt)).imp
      (fun c hc => hc.1))
  refine ⟨⟨cs⟩, ?_, ?_⟩
  · rw [create_geo_line_string, hcs]
    rfl
  · have henc : create_line_string_type F ⟨cs⟩ =
        mapRes (fun c => create_point_type F ⟨c⟩) cs := by
      rw [create_line_string_type, LineString.points, mapRes_map]
    rw [henc]
    refine mapRes_roundtrip ?_ hcs
    intro pt hpt c hc
    obtain ⟨c0, h1, h2, _⟩ :=
      flat_coordinate_roundtrip F hTot hInv pt (hwf pt hpt)
    exact rt_det (g := fun c => create_point_type F (⟨c⟩ : Point T)) h1 h2 hc

theorem flat_ls_list_roundtrip {T : Type} (F : FloatT T)
    (hTot : FromTotal F) (hInv : FromFaithful F) (L : List LineStringType)
    (hwf : ∀ lt ∈ L, wfLineStringType lt) :
    ∃ out : List (LineString T),
      mapRes (fun lt => create_geo_line_string F lt) L = Except.ok out ∧
      mapRes (fun l => create_line_string_type F l) out = Except.ok L := by
  obtain ⟨out, hout⟩ := mapRes_total (l := L) (fun lt hlt =>
    (flat_line_string_roundtrip F hTot hInv lt (hwf lt hlt)).imp
      (fun l hl => hl.1))
  refine ⟨out, hout, mapRes_roundtrip ?_ hout⟩
  intro lt hlt l hl
  obtain ⟨l0, h1, h2⟩ := flat_line_string_roundtrip F hTot hInv lt (hwf lt hlt)
  exact rt_det h1 h2 hl

theorem flat_polygon_roundtrip {T : Type} (F : FloatT T)
    (hTot : FromTotal F) (hInv : FromFaithful F) (pg : PolygonType)
    (hwf : wfPolygonType pg) (hne : pg ≠ []) :
    ∃ p : Polygon T, create_geo_polygon F pg = Except.ok p ∧
      create_polygon_type F p = Except.ok pg := by
  match pg with
  | [] => exact absurd rfl hne
  | r :: rs =>
    obtain ⟨e, he1, he2⟩ := flat_line_string_roundtrip F hTot hInv r
      (hwf r (List.mem_cons_self r rs))
    obtain ⟨ints, hi1, hi2⟩ := flat_ls_list_roundtrip F hTot hInv rs
      (fun lt hlt => hwf lt (List.mem_cons_of_mem r hlt))
    exact ⟨Polygon.new e ints, create_geo_polygon_cons F r rs he1 hi1,
      create_polygon_type_eq F (Polygon.new e ints) he2 hi2⟩

theorem flat_polygon_list_roundtrip {T : Type} (F : FloatT T)
    (hTot : FromTotal F) (hInv : FromFaithful F) (L : List PolygonType)
    (hwf : ∀ pg ∈ L, wfPolygonType pg ∧ pg ≠ []) :
    ∃ out : List (Polygon T),
      mapRes (fun pg => create_geo_polygon F pg) L = Except.ok out ∧
      mapRes (fun p => create_polygon_type F p) out = Except.ok L := by
  obtain ⟨out, hout⟩ := mapRes_total (l := L) (fun pg hpg =>
    (flat_polygon_roundtrip F hTot hInv pg (hwf pg hpg).1 (hwf pg hpg).2).imp
      (fun p hp => hp.1))
  refine ⟨out, hout, mapRes_roundtrip ?_ hout⟩
  intro pg hpg p hp
  obtain ⟨p0, h1, h2⟩ :=
    flat_polygon_roundtrip F hTot hInv pg (hwf pg hpg).1 (hwf pg hpg).2
  exact rt_det h1 h2 hp

/-! ### Claim theorems -/

/-- C1: for every typed geometry of kind Point, LineString,
MultiLineString, Polygon, or MultiPolygon whose coordinates are finite and
double-representable, decoding the encoding yields a value structurally
equal to the original, with element order preserved. -/
theorem C1_encode_decode_roundtrip :
    (∀ (T : Type) (F : FloatT T) (p : Point T),
      (∀ t ∈ p.coordVals, Rep F t) →
      ∃ f, create_point_type F p = Except.ok f ∧
        create_geo_point F f = Except.ok p) ∧
    (∀ (T : Type) (F : FloatT T) (l : LineString T),
      (∀ t ∈ l.coordVals, Rep F t) →
      ∃ f, create_line_string_type F l = Except.ok f ∧
        create_geo_line_string F f = Except.ok l) ∧
    (∀ (T : Type) (F : FloatT T) (m : MultiLineString T),
      (∀ t ∈ m.coordVals, Rep F t) →
      ∃ f, create_multi_line_string_type F m = Except.ok f ∧
        create_geo_multi_line_string F f = Except.ok m) ∧
    (∀ (T : Type) (F : FloatT T) (p : Polygon T),
      (∀ t ∈ p.coordVals, Rep F t) →
      ∃ f, create_polygon_type F p = Except.ok f ∧
        create_geo_polygon F f = Except.ok p) ∧
    (∀ (T : Type) (F : FloatT T) (m : MultiPolygon T),
      (∀ t ∈ m.coordVals, Rep F t) →
      ∃ f, create_multi_polygon_type F m = Except.ok f ∧
        create_geo_multi_polygon F f = Except.ok m) := by
  refine ⟨?_, ?_, ?_, ?_, ?_⟩
  · intro T F p h
    obtain ⟨pt, h1, h2, _⟩ := point_roundtrip F p
      (h p.x (by simp [Point.coordVals])) (h p.y (by simp [Point.coordVals]))
    exact ⟨pt, h1, h2⟩
  · intro T F l h
    exact line_string_roundtrip F l h
  · intro T F m h
    exact multi_line_string_roundtrip F m h
  · intro T F p h
    exact polygon_roundtrip F p h
  · intro T F m h
    exact multi_polygon_roundtrip F m h

/-- Witness for C1 at concrete geometries over `T = f64`. -/
theorem C1_encode_decode_roundtrip_witness :
    (∃ f, create_point_type idF (Point.new 1 2) = Except.ok f ∧
      create_geo_point idF f = Except.ok (Point.new 1 2)) ∧
    (∃ f, create_line_string_type idF ⟨[⟨0, 0⟩, ⟨1, 1⟩, ⟨2, 2⟩]⟩ = Except.ok f ∧
      create_geo_line_string idF f = Except.ok ⟨[⟨0, 0⟩, ⟨1, 1⟩, ⟨2, 2⟩]⟩) ∧
    (∃ f, create_multi_line_string_type idF ⟨[⟨[⟨0, 0⟩, ⟨1, 1⟩]⟩, ⟨[]⟩]⟩ =
        Except.ok f ∧
      create_geo_multi_line_string idF f =
        Except.ok ⟨[⟨[⟨0, 0⟩, ⟨1, 1⟩]⟩, ⟨[]⟩]⟩) ∧
    (∃ f, create_polygon_type idF
        (Polygon.new ⟨[⟨0, 0⟩, ⟨1, 0⟩, ⟨1, 1⟩, ⟨0, 0⟩]⟩
          [⟨[⟨2, 2⟩, ⟨3, 2⟩, ⟨3, 3⟩, ⟨2, 2⟩]⟩]) = Except.ok f ∧
      create_geo_polygon idF f = Except.ok
        (Polygon.new ⟨[⟨0, 0⟩, ⟨1, 0⟩, ⟨1, 1⟩, ⟨0, 0⟩]⟩
          [⟨[⟨2, 2⟩, ⟨3, 2⟩, ⟨3, 3⟩, ⟨2, 2⟩]⟩])) ∧
    (∃ f, create_multi_polygon_type idF
        ⟨[Polygon.new ⟨[⟨0, 0⟩, ⟨1, 0⟩, ⟨1, 1⟩, ⟨0, 0⟩]⟩ []]⟩ = Except.ok f ∧
      create_geo_multi_polygon idF f = Except.ok
        ⟨[Polygon.new ⟨[⟨0, 0⟩, ⟨1, 0⟩, ⟨1, 1⟩, ⟨0, 0⟩]⟩ []]⟩) :=
  ⟨C1_encode_decode_roundtrip.1 Rat idF (Point.new 1 2)
      (fun t _ => rep_idF t),
    C1_encode_decode_roundtrip.2.1 Rat idF _ (fun t _ => rep_idF t),
    C1_encode_decode_roundtrip.2.2.1 Rat idF _ (fun t _ => rep_idF t),
    C1_encode_decode_roundtrip.2.2.2.1 Rat idF _ (fun t _ => rep_idF t),
    C1_encode_decode_roundtrip.2.2.2.2 Rat idF _ (fun t _ => rep_idF t)⟩

/-- C5: every mapping-based encoder and decoder (`create_line_string_type`,
`create_multi_line_string_type`, `create_multi_polygon_type`,
`create_geo_multi_point`, `create_geo_line_string`,
`create_geo_multi_line_string`, `create_geo_multi_polygon`) preserves input
sequence order exactly: when it succeeds, the output has the same length as
the input sequence and its i-th element is the conversion of the i-th input
element. -/
theorem C5_order_preservation :
    (∀ (T : Type) (F : FloatT T) (l : LineString T) (out : LineStringType),
      create_line_string_type F l = Except.ok out →
      out.length = l.points.length ∧
      ∀ i (hi : i < l.points.length) (ho : i < out.length),
        create_point_type F (l.points.get ⟨i, hi⟩) =
          Except.ok (out.get ⟨i, ho⟩)) ∧
    (∀ (T : Type) (F : FloatT T) (m : MultiLineString T)
      (out : List LineStringType),
      create_multi_line_string_type F m = Except.ok out →
      out.length = m.lineStrings.length ∧
      ∀ i (hi : i < m.lineStrings.length) (ho : i < out.length),
        create_line_string_type F (m.lineStrings.get ⟨i, hi⟩) =
          Except.ok (out.get ⟨i, ho⟩)) ∧
    (∀ (T : Type) (F : FloatT T) (m : MultiPolygon T)
      (out : List PolygonType),
      create_multi_polygon_type F m = Except.ok out →
      out.length = m.polygons.length ∧
      ∀ i (hi : i < m.polygons.length) (ho : i < out.length),
        create_polygon_type F (m.polygons.get ⟨i, hi⟩) =
          Except.ok (out.get ⟨i, ho⟩)) ∧
    (∀ (T : Type) (F : FloatT T) (pts : List PointType) (out : MultiPoint T),
      create_geo_multi_point F pts = Except.ok out →
      out.points.length = pts.length ∧
      ∀ i (hi : i < pts.length) (ho : i < out.points.length),
        create_geo_point F (pts.get ⟨i, hi⟩) =
          Except.ok (out.points.get ⟨i, ho⟩)) ∧
    (∀ (T : Type) (F : FloatT T) (lt : LineStringType) (out : LineString T),
      create_geo_line_string F lt = Except.ok out →
      out.coords.length = lt.length ∧
      ∀ i (hi : i < lt.length) (ho : i < out.coords.length),
        create_geo_coordinate F (lt.get ⟨i, hi⟩) =
          Except.ok (out.coords.get ⟨i, ho⟩)) ∧
    (∀ (T : Type) (F : FloatT T) (mlt : List LineStringType)
      (out : MultiLineString T),
      create_geo_multi_line_string F mlt = Except.ok out →
      out.lineStrings.length = mlt.length ∧
      ∀ i (hi : i < mlt.length) (ho : i < out.lineStrings.length),
        create_geo_line_string F (mlt.get ⟨i, hi⟩) =
          Except.ok (out.lineStrings.get ⟨i, ho⟩)) ∧
    (∀ (T : Type) (F : FloatT T) (mpt : List PolygonType)
      (out : MultiPolygon T),
      create_geo_multi_polygon F mpt = Except.ok out →
      out.polygons.length = mpt.length ∧
      ∀ i (hi : i < mpt.length) (ho : i < out.polygons.length),
        create_geo_polygon F (mpt.get ⟨i, hi⟩) =
          Except.ok (out.polygons.get ⟨i, ho⟩)) := by
  refine ⟨?_, ?_, ?_, ?_, ?_, ?_, ?_⟩
  · intro T F l out h
    exact mapRes_ok_length_get h
  · intro T F m out h
    exact mapRes_ok_length_get h
  · intro T F m out h
    exact mapRes_ok_length_get h
  · intro T F pts out h
    obtain ⟨a, ha, rfl⟩ := except_map_ok_elim h
    exact mapRes_ok_length_get ha
  · intro T F lt out h
    obtain ⟨a, ha, rfl⟩ := except_map_ok_elim h
    exact mapRes_ok_length_get ha
  · intro T F mlt out h
    obtain ⟨a, ha, rfl⟩ := except_map_ok_elim h
    exact mapRes_ok_length_get ha
  · intro T F mpt out h
    obtain ⟨a, ha, rfl⟩ := except_map_ok_elim h
    exact mapRes_ok_length_get ha

/-- Witness for C5 on concrete sequences over `T = f64`. -/
theorem C5_order_preservation_witness :
    (([[0, 0], [1, 1], [2, 2]] : LineStringType).length =
      (LineString.points (T := Rat) ⟨[⟨0, 0⟩, ⟨1, 1⟩, ⟨2, 2⟩]⟩).length ∧
      ∀ i (hi : i < (LineString.points (T := Rat)
          ⟨[⟨0, 0⟩, ⟨1, 1⟩, ⟨2, 2⟩]⟩).length)
        (ho : i < ([[0, 0], [1, 1], [2, 2]] : LineStringType).length),
        create_point_type idF ((LineString.points
            ⟨[⟨0, 0⟩, ⟨1, 1⟩, ⟨2, 2⟩]⟩).get ⟨i, hi⟩) =
          Except.ok (([[0, 0], [1, 1], [2, 2]] : LineStringType).get ⟨i, ho⟩)) ∧
    ((MultiPoint.points (T := Rat) ⟨[Point.new 5 6, Point.new 7 8]⟩).length =
      ([[5, 6], [7, 8]] : List PointType).length ∧
      ∀ i (hi : i < ([[5, 6], [7, 8]] : List PointType).length)
        (ho : i < (MultiPoint.points (T := Rat)
          ⟨[Point.new 5 6, Point.new 7 8]⟩).length),
        create_geo_point idF (([[5, 6], [7, 8]] : List PointType).get ⟨i, hi⟩) =
          Except.ok ((MultiPoint.points
            ⟨[Point.new 5 6, Point.new 7 8]⟩).get ⟨i, ho⟩)) :=
  ⟨C5_order_preservation.1 Rat idF ⟨[⟨0, 0⟩, ⟨1, 1⟩, ⟨2, 2⟩]⟩
      [[0, 0], [1, 1], [2, 2]] rfl,
    C5_order_preservation.2.2.2.1 Rat idF [[5, 6], [7, 8]]
      ⟨[Point.new 5 6, Point.new 7 8]⟩ rfl⟩

/-- C3: `create_geo_polygon` on an empty sequence returns a polygon with
empty exterior and no interiors; on a one-element sequence, that element
decodes to the exterior and there are no interiors; on two or more
elements, element 0 decodes to the exterior and elements 1 onward decode,
in order, to the interiors. -/
theorem C3_decode_polygon_cases :
    (∀ (T : Type) (F : FloatT T),
      create_geo_polygon F [] =
        Except.ok (Polygon.new (⟨[]⟩ : LineString T) [])) ∧
    (∀ (T : Type) (F : FloatT T) (r : LineStringType) (e : LineString T),
      create_geo_line_string F r = Except.ok e →
      create_geo_polygon F [r] = Except.ok (Polygon.new e [])) ∧
    (∀ (T : Type) (F : FloatT T) (r : LineStringType)
      (rs : List LineStringType) (e : LineString T)
      (ints : List (LineString T)), 1 ≤ rs.length →
      create_geo_line_string F r = Except.ok e →
      mapRes (fun lt => create_geo_line_string F lt) rs = Except.ok ints →
      create_geo_polygon F (r :: rs) = Except.ok (Polygon.new e ints)) := by
  refine ⟨?_, ?_, ?_⟩
  · intro T F
    exact create_geo_polygon_nil F
  · intro T F r e he
    exact create_geo_polygon_cons F r [] he rfl
  · intro T F r rs e ints _ he hints
    exact create_geo_polygon_cons F r rs he hints

/-- Witness for C3 on concrete ring sequences over `T = f64`. -/
theorem C3_decode_polygon_cases_witness :
    create_geo_polygon idF [[[1, 2], [3, 4]]] =
      Except.ok (Polygon.new ⟨[⟨1, 2⟩, ⟨3, 4⟩]⟩ []) ∧
    create_geo_polygon idF [[[0, 0]], [[9, 9]], [[8, 8]]] =
      Except.ok (Polygon.new ⟨[⟨0, 0⟩]⟩ [⟨[⟨9, 9⟩]⟩, ⟨[⟨8, 8⟩]⟩]) :=
  ⟨C3_decode_polygon_cases.2.1 Rat idF [[1, 2], [3, 4]] ⟨[⟨1, 2⟩, ⟨3, 4⟩]⟩ rfl,
    C3_decode_polygon_cases.2.2 Rat idF [[0, 0]] [[[9, 9]], [[8, 8]]]
      ⟨[⟨0, 0⟩]⟩ [⟨[⟨9, 9⟩]⟩, ⟨[⟨8, 8⟩]⟩] (by decide) rfl rfl⟩

/-- C4: `create_polygon_type` returns the encoded exterior ring first,
followed by the encodings of the interior rings in original order; a
polygon with no interior rings encodes to a one-element sequence. -/
theorem C4_encode_polygon_layout :
    (∀ (T : Type) (F : FloatT T) (p : Polygon T) (e : LineStringType)
      (ints : List LineStringType),
      create_line_string_type F p.exterior = Except.ok e →
      mapRes (fun l => create_line_string_type F l) p.interiors =
        Except.ok ints →
      create_polygon_type F p = Except.ok (e :: ints)) ∧
    (∀ (T : Type) (F : FloatT T) (p : Polygon T) (e : LineStringType),
      p.interiors = [] →
      create_line_string_type F p.exterior = Except.ok e →
      create_polygon_type F p = Except.ok [e]) := by
  refine ⟨?_, ?_⟩
  · intro T F p e ints he hints
    exact create_polygon_type_eq F p he hints
  · intro T F p e hint he
    exact create_polygon_type_eq F p he (by rw [hint]; rfl)

/-- Witness for C4 on concrete polygons over `T = f64`. -/
theorem C4_encode_polygon_layout_witness :
    create_polygon_type idF
      (Polygon.new ⟨[⟨0, 0⟩, ⟨1, 0⟩]⟩ [⟨[⟨2, 2⟩]⟩, ⟨[⟨3, 3⟩]⟩]) =
      Except.ok [[[0, 0], [1, 0]], [[2, 2]], [[3, 3]]] ∧
    create_polygon_type idF (Polygon.new ⟨[⟨4, 4⟩, ⟨5, 5⟩]⟩ []) =
      Except.ok [[[4, 4], [5, 5]]] :=
  ⟨C4_encode_polygon_layout.1 Rat idF
      (Polygon.new ⟨[⟨0, 0⟩, ⟨1, 0⟩]⟩ [⟨[⟨2, 2⟩]⟩, ⟨[⟨3, 3⟩]⟩])
      [[0, 0], [1, 0]] [[[2, 2]], [[3, 3]]] rfl rfl,
    C4_encode_polygon_layout.2 Rat idF (Polygon.new ⟨[⟨4, 4⟩, ⟨5, 5⟩]⟩ [])
      [[4, 4], [5, 5]] rfl rfl⟩

/-- C8: empty-but-structurally-valid input decodes to the corresponding
empty typed value, never to an error: the empty coordinate sequence, ring
sequence, and member sequences of each multi kind and of a geometry
collection. -/
theorem C8_empty_input_decodes_to_empty :
    (∀ (T : Type) (F : FloatT T),
      create_geo_line_string F [] = Except.ok (⟨[]⟩ : LineString T)) ∧
    (∀ (T : Type) (F : FloatT T),
      create_geo_polygon F [] =
        Except.ok (Polygon.new (⟨[]⟩ : LineString T) [])) ∧
    (∀ (T : Type) (F : FloatT T),
      create_geo_multi_point F [] = Except.ok (⟨[]⟩ : MultiPoint T)) ∧
    (∀ (T : Type) (F : FloatT T),
      create_geo_multi_line_string F [] =
        Except.ok (⟨[]⟩ : MultiLineString T)) ∧
    (∀ (T : Type) (F : FloatT T),
      create_geo_multi_polygon F [] = Except.ok (⟨[]⟩ : MultiPolygon T)) ∧
    (∀ (T : Type) (F : FloatT T),
      create_geo_geometry_collection F [] =
        Except.ok ([] : GeometryCollection T)) := by
  refine ⟨fun T F => rfl, fun T F => rfl, fun T F => rfl, fun T F => rfl,
    fun T F => rfl, fun T F => ?_⟩
  rw [create_geo_geometry_collection_eq_mapRes]
  rfl

/-- C6: `create_geo_coordinate` and `create_geo_point` index positions 0
and 1; with at least 2 elements the indexing never goes out of bounds,
and with fewer than 2 elements the call never returns normally — when the
numeric conversions themselves succeed, it fails precisely with the
out-of-bounds panic at the point of access. -/
theorem C6_positional_precondition :
    (∀ (T : Type) (F : FloatT T) (pt : PointType), 2 ≤ pt.length →
      create_geo_coordinate F pt ≠ Except.error PanicKind.indexOOB ∧
      create_geo_point F pt ≠ Except.error PanicKind.indexOOB) ∧
    (∀ (T : Type) (F : FloatT T) (pt : PointType), pt.length < 2 →
      (∀ c, create_geo_coordinate F pt ≠ Except.ok c) ∧
      (∀ p, create_geo_point F pt ≠ Except.ok p)) ∧
    (∀ (T : Type) (F : FloatT T) (pt : PointType), pt.length < 2 →
      (∀ d, (F.from_f64 d).isSome) →
      create_geo_coordinate F pt = Except.error PanicKind.indexOOB ∧
      create_geo_point F pt = Except.error PanicKind.indexOOB) := by
  refine ⟨?_, ?_, ?_⟩
  · intro T F pt h
    match pt with
    | [] => exact absurd h (by simp)
    | [a] => exact absurd h (by simp)
    | a :: b :: rest =>
      constructor
      · cases ha : F.from_f64 a with
        | none => simp [create_geo_coordinate, indexAt, ha, unwrap]
        | some x =>
          cases hb : F.from_f64 b with
          | none => simp [create_geo_coordinate, indexAt, ha, hb, unwrap]
          | some y => simp [create_geo_coordinate, indexAt, ha, hb, unwrap]
      · cases ha : F.from_f64 a with
        | none => simp [create_geo_point, indexAt, ha, unwrap]
        | some x =>
          cases hb : F.from_f64 b with
          | none => simp [create_geo_point, indexAt, ha, hb, unwrap]
          | some y => simp [create_geo_point, indexAt, ha, hb, unwrap]
  · intro T F pt h
    match pt with
    | [] =>
      constructor
      · intro c
        simp [create_geo_coordinate, indexAt]
      · intro p
        simp [create_geo_point, indexAt]
    | [a] =>
      constructor
      · intro c
        cases ha : F.from_f64 a with
        | none => simp [create_geo_coordinate, indexAt, ha, unwrap]
        | some x => simp [create_geo_coordinate, indexAt, ha, unwrap]
      · intro p
        cases ha : F.from_f64 a with
        | none => simp [create_geo_point, indexAt, ha, unwrap]
        | some x => simp [create_geo_point, indexAt, ha, unwrap]
    | a :: b :: rest => exact absurd h (by simp)
  · intro T F pt h htot
    match pt with
    | [] => exact ⟨rfl, rfl⟩
    | [a] =>
      obtain ⟨x, hx⟩ := Option.isSome_iff_exists.1 (htot a)
      constructor
      · simp [create_geo_coordinate, indexAt, hx, unwrap]
      · simp [create_geo_point, indexAt, hx, unwrap]
    | a :: b :: rest => exact absurd h (by simp)

/-- Witness for C6 at concrete inputs over `T = f64`. -/
theorem C6_positional_precondition_witness :
    (create_geo_coordinate idF [1, 2] ≠ Except.error PanicKind.indexOOB ∧
      create_geo_point idF [1, 2] ≠ Except.error PanicKind.indexOOB) ∧
    ((∀ c, create_geo_coordinate idF [1] ≠ Except.ok c) ∧
      (∀ p, create_geo_point idF [1] ≠ Except.ok p)) ∧
    (create_geo_coordinate idF [] = Except.error PanicKind.indexOOB ∧
      create_geo_point idF [] = Except.error PanicKind.indexOOB) :=
  ⟨C6_positional_precondition.1 Rat idF [1, 2] (by decide),
    C6_positional_precondition.2.1 Rat idF [1] (by decide),
    C6_positional_precondition.2.2 Rat idF [] (by decide)
      (fun d => rfl)⟩

/-- C9: a failed numeric conversion is a fatal panic, never a silent
substitution: an encode with a failing `to_f64` panics with `numConv`, a
successful encode returns exactly the converted doubles, a decode whose
`from_f64` fails on the value at position 0 panics with `numConv`, and a
successful decode returns exactly the values converted from positions 0
and 1. -/
theorem C9_numeric_conversion_fatal :
    (∀ (T : Type) (F : FloatT T) (p : Point T),
      F.to_f64 p.x = none ∨ F.to_f64 p.y = none →
      create_point_type F p = Except.error PanicKind.numConv) ∧
    (∀ (T : Type) (F : FloatT T) (p : Point T) (out : PointType),
      create_point_type F p = Except.ok out →
      ∃ dx dy, F.to_f64 p.x = some dx ∧ F.to_f64 p.y = some dy ∧
        out = [dx, dy]) ∧
    (∀ (T : Type) (F : FloatT T) (pt : PointType) (d : Rat),
      pt.get? 0 = some d → F.from_f64 d = none →
      create_geo_coordinate F pt = Except.error PanicKind.numConv ∧
      create_geo_point F pt = Except.error PanicKind.numConv) ∧
    (∀ (T : Type) (F : FloatT T) (pt : PointType) (c : Coord T),
      create_geo_coordinate F pt = Except.ok c →
      ∃ d0 d1, pt.get? 0 = some d0 ∧ pt.get? 1 = some d1 ∧
        F.from_f64 d0 = some c.x ∧ F.from_f64 d1 = some c.y) := by
  refine ⟨?_, ?_, ?_, ?_⟩
  · intro T F p h
    rcases h with h | h
    · simp [create_point_type, h, unwrap]
    · cases hx : F.to_f64 p.x with
      | none => simp [create_point_type, hx, unwrap]
      | some dx => simp [create_point_type, hx, h, unwrap]
  · intro T F p out h
    cases hx : F.to_f64 p.x with
    | none => rw [create_point_type] at h; simp [hx, unwrap] at h
    | some dx =>
      cases hy : F.to_f64 p.y with
      | none => rw [create_point_type] at h; simp [hx, hy, unwrap] at h
      | some dy =>
        rw [create_point_type] at h
        simp only [hx, hy, unwrap, res_bind_ok] at h
        cases h
        exact ⟨dx, dy, rfl, rfl, rfl⟩
  · intro T F pt d hd hfail
    match pt with
    | [] => cases hd
    | a :: rest =>
      have : a = d := by
        simpa using hd
      subst this
      constructor
      · simp [create_geo_coordinate, indexAt, hfail, unwrap]
      · simp [create_geo_point, indexAt, hfail, unwrap]
  · intro T F pt c h
    match pt with
    | [] => rw [create_geo_coordinate] at h; simp [indexAt] at h
    | [a] =>
      rw [create_geo_coordinate] at h
      cases ha : F.from_f64 a with
      | none => simp [indexAt, ha, unwrap] at h
      | some x => simp [indexAt, ha, unwrap] at h
    | a :: b :: rest =>
      rw [create_geo_coordinate] at h
      cases ha : F.from_f64 a with
      | none => simp [indexAt, ha, unwrap] at h
      | some x =>
        cases hb : F.from_f64 b with
        | none => simp [indexAt, ha, hb, unwrap] at h
        | some y =>
          simp only [indexAt, List.get?, ha, hb, unwrap, res_bind_ok] at h
          cases h
          exact ⟨a, b, rfl, rfl, ha, hb⟩

/-- Witness for C9: failing conversions panic, successful ones return the
exact converted values. -/
theorem C9_numeric_conversion_fatal_witness :
    create_point_type badF (Point.new 1 2) = Except.error PanicKind.numConv ∧
    (∃ dx dy, idF.to_f64 (Point.x (Point.new 3 4)) = some dx ∧
      idF.to_f64 (Point.y (Point.new 3 4)) = some dy ∧
      ([3, 4] : PointType) = [dx, dy]) ∧
    (create_geo_coordinate badF [1, 2] = Except.error PanicKind.numConv ∧
      create_geo_point badF [1, 2] = Except.error PanicKind.numConv) ∧
    (∃ d0 d1, ([5, 6] : PointType).get? 0 = some d0 ∧
      ([5, 6] : PointType).get? 1 = some d1 ∧
      idF.from_f64 d0 = some (Coord.x (T := Rat) ⟨5, 6⟩) ∧
      idF.from_f64 d1 = some (Coord.y (T := Rat) ⟨5, 6⟩)) :=
  ⟨C9_numeric_conversion_fatal.1 Rat badF (Point.new 1 2) (Or.inl rfl),
    C9_numeric_conversion_fatal.2.1 Rat idF (Point.new 3 4) [3, 4] rfl,
    C9_numeric_conversion_fatal.2.2.1 Rat badF [1, 2] 1 rfl rfl,
    C9_numeric_conversion_fatal.2.2.2 Rat idF [5, 6] ⟨5, 6⟩ rfl⟩

/-- C10: on an input with more than 2 elements, `create_geo_coordinate`
and `create_geo_point` read only positions 0 and 1, ignore the rest, and
return the (x, y) value with no error. -/
theorem C10_extra_elements_ignored :
    ∀ (T : Type) (F : FloatT T) (a b : Rat) (rest : List Rat),
      (create_geo_coordinate F (a :: b :: rest) =
          create_geo_coordinate F [a, b] ∧
        create_geo_point F (a :: b :: rest) = create_geo_point F [a, b]) ∧
      ∀ (x y : T), F.from_f64 a = some x → F.from_f64 b = some y →
        create_geo_coordinate F (a :: b :: rest) = Except.ok ⟨x, y⟩ ∧
        create_geo_point F (a :: b :: rest) = Except.ok (Point.new x y) := by
  intro T F a b rest
  refine ⟨⟨rfl, rfl⟩, ?_⟩
  intro x y hx hy
  exact ⟨create_geo_coordinate_pair F hx hy rest,
    create_geo_point_pair F hx hy rest⟩

/-- Witness for C10 at the three-element input `[1, 2, 3]`. -/
theorem C10_extra_elements_ignored_witness :
    create_geo_coordinate idF [1, 2, 3] = Except.ok ⟨1, 2⟩ ∧
    create_geo_point idF [1, 2, 3] = Except.ok (Point.new 1 2) :=
  (C10_extra_elements_ignored Rat idF 1 2 [3]).2 1 2 rfl rfl

/-- C7: the geometry-collection decoder dispatches exhaustively on all
seven tags, decoding each element with the corresponding singular decoder
wrapped in the matching typed variant, recursing into itself for a nested
collection tag, and preserving input order and length. -/
theorem C7_geometry_collection_dispatch :
    (∀ (T : Type) (F : FloatT T) (p : PointType),
      create_geo_geometry F (Geometry.mk (Value.point p)) =
        Except.map GeoGeometry.point (create_geo_point F p)) ∧
    (∀ (T : Type) (F : FloatT T) (l : LineStringType),
      create_geo_geometry F (Geometry.mk (Value.lineString l)) =
        Except.map GeoGeometry.lineString (create_geo_line_string F l)) ∧
    (∀ (T : Type) (F : FloatT T) (p : PolygonType),
      create_geo_geometry F (Geometry.mk (Value.polygon p)) =
        Except.map GeoGeometry.polygon (create_geo_polygon F p)) ∧
    (∀ (T : Type) (F : FloatT T) (p : List PointType),
      create_geo_geometry F (Geometry.mk (Value.multiPoint p)) =
        Except.map GeoGeometry.multiPoint (create_geo_multi_point F p)) ∧
    (∀ (T : Type) (F : FloatT T) (p : List PolygonType),
      create_geo_geometry F (Geometry.mk (Value.multiPolygon p)) =
        Except.map GeoGeometry.multiPolygon (create_geo_multi_polygon F p)) ∧
    (∀ (T : Type) (F : FloatT T) (p : List LineStringType),
      create_geo_geometry F (Geometry.mk (Value.multiLineString p)) =
        Except.map GeoGeometry.multiLineString
          (create_geo_multi_line_string F p)) ∧
    (∀ (T : Type) (F : FloatT T) (g : List Geometry),
      create_geo_geometry F (Geometry.mk (Value.geometryCollection g)) =
        Except.map GeoGeometry.geometryCollection
          (create_geo_geometry_collection F g)) ∧
    (∀ (T : Type) (F : FloatT T) (gs : List Geometry)
      (out : GeometryCollection T),
      create_geo_geometry_collection F gs = Except.ok out →
      out.length = gs.length ∧
      ∀ i (hi : i < gs.length) (ho : i < out.length),
        create_geo_geometry F (gs.get ⟨i, hi⟩) = Except.ok (out.get ⟨i, ho⟩)) := by
  refine ⟨fun T F p => rfl, fun T F l => rfl, fun T F p => rfl,
    fun T F p => rfl, fun T F p => rfl, fun T F p => rfl, fun T F g => rfl,
    ?_⟩
  intro T F gs out h
  rw [create_geo_geometry_collection_eq_mapRes] at h
  exact mapRes_ok_length_get h

/-- Witness for C7: decoding a point/line-string sequence with a nested
collection, over `T = f64`. -/
theorem C7_geometry_collection_dispatch_witness :
    ([GeoGeometry.point (Point.new 1 2),
      GeoGeometry.lineString (⟨[⟨0, 0⟩, ⟨1, 1⟩]⟩ : LineString Rat),
      GeoGeometry.geometryCollection [GeoGeometry.point (Point.new 3 4)]] :
        GeometryCollection Rat).length =
      ([Geometry.mk (Value.point [1, 2]),
        Geometry.mk (Value.lineString [[0, 0], [1, 1]]),
        Geometry.mk (Value.geometryCollection
          [Geometry.mk (Value.point [3, 4])])]).length ∧
    ∀ i (hi : i < ([Geometry.mk (Value.point [1, 2]),
        Geometry.mk (Value.lineString [[0, 0], [1, 1]]),
        Geometry.mk (Value.geometryCollection
          [Geometry.mk (Value.point [3, 4])])]).length)
      (ho : i < ([GeoGeometry.point (Point.new 1 2),
        GeoGeometry.lineString (⟨[⟨0, 0⟩, ⟨1, 1⟩]⟩ : LineString Rat),
        GeoGeometry.geometryCollection [GeoGeometry.point (Point.new 3 4)]] :
          GeometryCollection Rat).length),
      create_geo_geometry idF (([Geometry.mk (Value.point [1, 2]),
        Geometry.mk (Value.lineString [[0, 0], [1, 1]]),
        Geometry.mk (Value.geometryCollection
          [Geometry.mk (Value.point [3, 4])])]).get ⟨i, hi⟩) =
        Except.ok (([GeoGeometry.point (Point.new 1 2),
          GeoGeometry.lineString (⟨[⟨0, 0⟩, ⟨1, 1⟩]⟩ : LineString Rat),
          GeoGeometry.geometryCollection
            [GeoGeometry.point (Point.new 3 4)]] :
            GeometryCollection Rat).get ⟨i, ho⟩) :=
  C7_geometry_collection_dispatch.2.2.2.2.2.2.2 Rat idF
    [Geometry.mk (Value.point [1, 2]),
      Geometry.mk (Value.lineString [[0, 0], [1, 1]]),
      Geometry.mk (Value.geometryCollection
        [Geometry.mk (Value.point [3, 4])])]
    [GeoGeometry.point (Point.new 1 2),
      GeoGeometry.lineString ⟨[⟨0, 0⟩, ⟨1, 1⟩]⟩,
      GeoGeometry.geometryCollection [GeoGeometry.point (Point.new 3 4)]]
    rfl

/-- C2 counterexample: the empty flat polygon `[]` is correctly shaped
(every one of its zero pairs has length 2), yet encode∘decode maps it to
the one-element sequence `[[]]`, not back to `[]`: decoding falls back to
the empty-exterior polygon and re-encoding always emits the exterior. -/
theorem C2_decode_encode_counterexample :
    wfPolygonType [] ∧
    (create_geo_polygon (T := Rat) idF [] >>=
      fun p => create_polygon_type idF p) = Except.ok [[]] ∧
    ([[]] : PolygonType) ≠ [] := by
  refine ⟨?_, rfl, by simp⟩
  intro lt hlt
  simp at hlt

/-- C2 amended: encode∘decode is the identity on correctly shaped flat
values, over any numeric type whose from-double conversion is total and
faithfully invertible (as with `f64`), **provided** every polygon value
(standalone or inside a multi polygon) has at least one ring.  The empty
polygon sequence is the sole exception, per the counterexample. -/
theorem C2_decode_encode_roundtrip_amended :
    (∀ (T : Type) (F : FloatT T), FromTotal F → FromFaithful F →
      ∀ pt : PointType, wfPointType pt →
      ∃ p : Point T, create_geo_point F pt = Except.ok p ∧
        create_point_type F p = Except.ok pt) ∧
    (∀ (T : Type) (F : FloatT T), FromTotal F → FromFaithful F →
      ∀ lt : LineStringType, wfLineStringType lt →
      ∃ l : LineString T, create_geo_line_string F lt = Except.ok l ∧
        create_line_string_type F l = Except.ok lt) ∧
    (∀ (T : Type) (F : FloatT T), FromTotal F → FromFaithful F →
      ∀ mlt : List LineStringType, (∀ lt ∈ mlt, wfLineStringType lt) →
      ∃ m : MultiLineString T,
        create_geo_multi_line_string F mlt = Except.ok m ∧
        create_multi_line_string_type F m = Except.ok mlt) ∧
    (∀ (T : Type) (F : FloatT T), FromTotal F → FromFaithful F →
      ∀ pg : PolygonType, wfPolygonType pg → pg ≠ [] →
      ∃ p : Polygon T, create_geo_polygon F pg = Except.ok p ∧
        create_polygon_type F p = Except.ok pg) ∧
    (∀ (T : Type) (F : FloatT T), FromTotal F → FromFaithful F →
      ∀ mp : List PolygonType, (∀ pg ∈ mp, wfPolygonType pg ∧ pg ≠ []) →
      ∃ m : MultiPolygon T, create_geo_multi_polygon F mp = Except.ok m ∧
        create_multi_polygon_type F m = Except.ok mp) := by
  refine ⟨?_, ?_, ?_, ?_, ?_⟩
  · intro T F hTot hInv pt hwf
    obtain ⟨c, _, h2, h3⟩ := flat_coordinate_roundtrip F hTot hInv pt hwf
    exact ⟨⟨c⟩, h3, h2⟩
  · intro T F hTot hInv lt hwf
    exact flat_line_string_roundtrip F hTot hInv lt hwf
  · intro T F hTot hInv mlt hwf
    obtain ⟨out, h1, h2⟩ := flat_ls_list_roundtrip F hTot hInv mlt hwf
    refine ⟨⟨out⟩, ?_, h2⟩
    rw [create_geo_multi_line_string, h1]
    rfl
  · intro T F hTot hInv pg hwf hne
    exact flat_polygon_roundtrip F hTot hInv pg hwf hne
  · intro T F hTot hInv mp hwf
    obtain ⟨out, h1, h2⟩ := flat_polygon_list_roundtrip F hTot hInv mp hwf
    refine ⟨⟨out⟩, ?_, h2⟩
    rw [create_geo_multi_polygon, h1]
    rfl

/-- Witness for the amended C2 at concrete flat values over `T = f64`. -/
theorem C2_decode_encode_roundtrip_amended_witness :
    (∃ p : Point Rat, create_geo_point idF [1, 2] = Except.ok p ∧
      create_point_type idF p = Except.ok [1, 2]) ∧
    (∃ l : LineString Rat,
      create_geo_line_string idF [[0, 0], [1, 1], [2, 2]] = Except.ok l ∧
      create_line_string_type idF l = Except.ok [[0, 0], [1, 1], [2, 2]]) ∧
    (∃ p : Polygon Rat,
      create_geo_polygon idF [[[0, 0], [1, 0]], [[2, 2], [3, 3]]] =
        Except.ok p ∧
      create_polygon_type idF p =
        Except.ok [[[0, 0], [1, 0]], [[2, 2], [3, 3]]]) ∧
    (∃ m : MultiPolygon Rat,
      create_geo_multi_polygon idF [[[[4, 4]]]] = Except.ok m ∧
      create_multi_polygon_type idF m = Except.ok [[[[4, 4]]]]) :=
  ⟨C2_decode_encode_roundtrip_amended.1 Rat idF fromTotal_idF
      fromFaithful_idF [1, 2] rfl,
    C2_decode_encode_roundtrip_amended.2.1 Rat idF fromTotal_idF
      fromFaithful_idF [[0, 0], [1, 1], [2, 2]] (by decide),
    C2_decode_encode_roundtrip_amended.2.2.2.1 Rat idF fromTotal_idF
      fromFaithful_idF [[[0, 0], [1, 0]], [[2, 2], [3, 3]]] (by decide)
      (by simp),
    C2_decode_encode_roundtrip_amended.2.2.2.2 Rat idF fromTotal_idF
      fromFaithful_idF [[[[4, 4]]]] (by decide)⟩

end Conversion
